import Mathlib

/-!
Verification of the PSP22 chain-extension bridge
(src/runtime/src/psp22_chain_ext.rs of the trappist repository).

The bridge dispatches a 32-bit selector to a handler, decodes the
caller-supplied SCALE-encoded input, pre-charges weight for mutating
operations, invokes the assets ledger, and writes the SCALE-encoded
result into the caller-declared output buffer.

Concrete scalar instantiation used by the runtime: `AssetId = u32`,
`AccountId = AccountId32` (32 raw bytes), `Balance = u128`.
-/

namespace Psp22

/-- A byte, modelled as a natural number (values below 256 where it matters). -/
abbrev Byte := Nat

/-- The runtime asset identifier, a `u32`. -/
abbrev AssetId := Nat

/-- The runtime account identifier, `AccountId32`: 32 raw bytes. -/
abbrev AccountId := List Byte

/-- The runtime balance type, a `u128`. -/
abbrev Balance := Nat

/-- SCALE fixed-width little-endian encoding of an unsigned integer into
`w` bytes (the value is taken modulo `256 ^ w`, as a `uN` register holds). -/
def encodeLE : Nat → Nat → List Byte
  | 0, _ => []
  | w + 1, n => n % 256 :: encodeLE w (n / 256)

/-- SCALE fixed-width little-endian decoding of `w` bytes from the front of a
buffer; fails on a truncated buffer, returns the value and the remaining bytes. -/
def decodeLE : Nat → List Byte → Option (Nat × List Byte)
  | 0, bs => some (0, bs)
  | _ + 1, [] => none
  | w + 1, b :: bs =>
    match decodeLE w bs with
    | some (n, rest) => some (b + 256 * n, rest)
    | none => none

/-- Decoding of `c` raw bytes (an `AccountId32` uses `c = 32`); fails on a
truncated buffer. -/
def decodeBytes : Nat → List Byte → Option (List Byte × List Byte)
  | 0, bs => some ([], bs)
  | _ + 1, [] => none
  | c + 1, b :: bs =>
    match decodeBytes c bs with
    | some (xs, rest) => some (b :: xs, rest)
    | none => none

theorem decodeLE_succ_cons (w : Nat) (b : Byte) (bs : List Byte) :
    decodeLE (w + 1) (b :: bs) =
      match decodeLE w bs with
      | some (n, rest) => some (b + 256 * n, rest)
      | none => none := rfl

theorem decodeLE_encodeLE (w : Nat) (n : Nat) (rest : List Byte) :
    decodeLE w (encodeLE w n ++ rest) = some (n % 256 ^ w, rest) := by
  induction w generalizing n with
  | zero => simp [encodeLE, decodeLE, Nat.mod_one]
  | succ w ih =>
    simp only [encodeLE, List.cons_append, decodeLE_succ_cons, ih]
    congr 2
    rw [pow_succ, mul_comm (256 ^ w) 256, Nat.mod_mul]

theorem decodeLE_encodeLE_of_lt {w n : Nat} (h : n < 256 ^ w) (rest : List Byte) :
    decodeLE w (encodeLE w n ++ rest) = some (n, rest) := by
  rw [decodeLE_encodeLE, Nat.mod_eq_of_lt h]

theorem decodeBytes_succ_cons (c : Nat) (b : Byte) (bs : List Byte) :
    decodeBytes (c + 1) (b :: bs) =
      match decodeBytes c bs with
      | some (xs, rest) => some (b :: xs, rest)
      | none => none := rfl

theorem decodeBytes_append {xs : List Byte} {c : Nat} (h : xs.length = c)
    (rest : List Byte) : decodeBytes c (xs ++ rest) = some (xs, rest) := by
  induction xs generalizing c with
  | nil => subst h; simp [decodeBytes]
  | cons b bs ih =>
    subst h
    simp only [List.length_cons, List.cons_append, decodeBytes_succ_cons, ih rfl]

/-- Number of bytes needed for the SCALE compact big-integer mode. -/
def byteLen (n : Nat) : Nat := if n = 0 then 0 else Nat.log 256 n + 1

/-- SCALE compact encoding of an unsigned integer (used as the length prefix
of `Vec<u8>` values such as token names and symbols). -/
def compactEncode (n : Nat) : List Byte :=
  if n < 64 then [n * 4]
  else if n < 2 ^ 14 then encodeLE 2 (n * 4 + 1)
  else if n < 2 ^ 30 then encodeLE 4 (n * 4 + 2)
  else ((byteLen n - 4) * 4 + 3) % 256 :: encodeLE (byteLen n) n

/-- SCALE encoding of a `Vec<u8>`: compact length prefix followed by the bytes. -/
def encodeByteVec (bs : List Byte) : List Byte := compactEncode bs.length ++ bs

/-- SCALE encoding of a `u8`. -/
def encodeU8 (n : Nat) : List Byte := [n % 256]

/-- Input of `PSP22::balance_of` (selector 0x6568382f), from the source:
fields `asset_id`, `owner`. -/
structure Psp22BalanceOfInput where
  asset_id : AssetId
  owner : AccountId
deriving DecidableEq

/-- Input of `PSP22::allowance` (selector 0x4d47d921), from the source:
fields `asset_id`, `owner`, `spender`. -/
structure Psp22AllowanceInput where
  asset_id : AssetId
  owner : AccountId
  spender : AccountId
deriving DecidableEq

/-- Input of `PSP22::transfer` (selector 0xdb20f9f5), from the source:
fields `asset_id`, `to` (here `dest`, since `to` is reserved), `value`. -/
structure Psp22TransferInput where
  asset_id : AssetId
  dest : AccountId
  value : Balance
deriving DecidableEq

/-- Input of `PSP22::transfer_from` (selector 0x54b3c76e), from the source:
fields `asset_id`, `from` (here `source`), `to` (here `dest`), `value`. -/
structure Psp22TransferFromInput where
  asset_id : AssetId
  source : AccountId
  dest : AccountId
  value : Balance
deriving DecidableEq

/-- Input of `PSP22::approve` (selectors 0xb20f1bbd and 0x96d6b57a), from the
source: fields `asset_id`, `spender`, `value`. -/
structure Psp22ApproveInput where
  asset_id : AssetId
  spender : AccountId
  value : Balance
deriving DecidableEq

/-- SCALE derive(Encode): concatenation of the field encodings. -/
def Psp22BalanceOfInput.encode (i : Psp22BalanceOfInput) : List Byte :=
  encodeLE 4 i.asset_id ++ i.owner

/-- SCALE derive(Decode): fields decoded in declaration order. -/
def Psp22BalanceOfInput.decode (bs : List Byte) :
    Option (Psp22BalanceOfInput × List Byte) :=
  match decodeLE 4 bs with
  | none => none
  | some (a, bs1) =>
    match decodeBytes 32 bs1 with
    | none => none
    | some (owner, bs2) => some (⟨a, owner⟩, bs2)

/-- SCALE derive(Encode): concatenation of the field encodings. -/
def Psp22AllowanceInput.encode (i : Psp22AllowanceInput) : List Byte :=
  encodeLE 4 i.asset_id ++ i.owner ++ i.spender

/-- SCALE derive(Decode): fields decoded in declaration order. -/
def Psp22AllowanceInput.decode (bs : List Byte) :
    Option (Psp22AllowanceInput × List Byte) :=
  match decodeLE 4 bs with
  | none => none
  | some (a, bs1) =>
    match decodeBytes 32 bs1 with
    | none => none
    | some (owner, bs2) =>
      match decodeBytes 32 bs2 with
      | none => none
      | some (spender, bs3) => some (⟨a, owner, spender⟩, bs3)

/-- SCALE derive(Encode): concatenation of the field encodings. -/
def Psp22TransferInput.encode (i : Psp22TransferInput) : List Byte :=
  encodeLE 4 i.asset_id ++ i.dest ++ encodeLE 16 i.value

/-- SCALE derive(Decode): fields decoded in declaration order. -/
def Psp22TransferInput.decode (bs : List Byte) :
    Option (Psp22TransferInput × List Byte) :=
  match decodeLE 4 bs with
  | none => none
  | some (a, bs1) =>
    match decodeBytes 32 bs1 with
    | none => none
    | some (dest, bs2) =>
      match decodeLE 16 bs2 with
      | none => none
      | some (v, bs3) => some (⟨a, dest, v⟩, bs3)

/-- SCALE derive(Encode): concatenation of the field encodings. -/
def Psp22TransferFromInput.encode (i : Psp22TransferFromInput) : List Byte :=
  encodeLE 4 i.asset_id ++ i.source ++ i.dest ++ encodeLE 16 i.value

/-- SCALE derive(Decode): fields decoded in declaration order. -/
def Psp22TransferFromInput.decode (bs : List Byte) :
    Option (Psp22TransferFromInput × List Byte) :=
  match decodeLE 4 bs with
  | none => none
  | some (a, bs1) =>
    match decodeBytes 32 bs1 with
    | none => none
    | some (source, bs2) =>
      match decodeBytes 32 bs2 with
      | none => none
      | some (dest, bs3) =>
        match decodeLE 16 bs3 with
        | none => none
        | some (v, bs4) => some (⟨a, source, dest, v⟩, bs4)

/-- SCALE derive(Encode): concatenation of the field encodings. -/
def Psp22ApproveInput.encode (i : Psp22ApproveInput) : List Byte :=
  encodeLE 4 i.asset_id ++ i.spender ++ encodeLE 16 i.value

/-- SCALE derive(Decode): fields decoded in declaration order. -/
def Psp22ApproveInput.decode (bs : List Byte) :
    Option (Psp22ApproveInput × List Byte) :=
  match decodeLE 4 bs with
  | none => none
  | some (a, bs1) =>
    match decodeBytes 32 bs1 with
    | none => none
    | some (spender, bs2) =>
      match decodeLE 16 bs2 with
      | none => none
      | some (v, bs3) => some (⟨a, spender, v⟩, bs3)

/-- Validity of an account identifier: exactly 32 bytes, each a byte value. -/
def ValidAccount (acc : AccountId) : Prop :=
  acc.length = 32 ∧ ∀ b ∈ acc, b < 256

instance (acc : AccountId) : Decidable (ValidAccount acc) := by
  unfold ValidAccount; infer_instance


/-- Caller-visible dispatch error. `other` mirrors `DispatchError::Other(&str)`
from the source; `outOfWeight` and `decodeFailure` model the errors that
`env.charge_weight` and `env.read_as` of the host propagate through `?`. -/
inductive DispatchError where
  | other (msg : String)
  | outOfWeight
  | decodeFailure
deriving DecidableEq

/-- Return value of a successful dispatch; the source always returns
`RetVal::Converging(0)`. -/
inductive RetVal where
  | converging (n : Nat)
deriving DecidableEq

/-- Query view of the assets ledger (`pallet_assets`), as consumed by the
bridge: `name`, `symbol`, `decimals`, `total_issuance`, `balance`,
`allowance`. -/
structure Ledger where
  name : AssetId → List Byte
  symbol : AssetId → List Byte
  decimals : AssetId → Nat
  total_issuance : AssetId → Balance
  balance : AssetId → AccountId → Balance
  allowance : AssetId → AccountId → AccountId → Balance

/-- Record of one mutating ledger invocation made by the bridge, with the
exact arguments passed. -/
inductive LedgerCall where
  | transfer (asset : AssetId) (source dest : AccountId) (value : Balance)
      (keep_alive : Bool)
  | transfer_from (asset : AssetId) (spender source dest : AccountId)
      (value : Balance)
  | approve (asset : AssetId) (owner spender : AccountId) (value : Balance)
deriving DecidableEq

/-- Mutating interface of the assets ledger, polymorphic over the concrete
implementation (the bridge only requires these signatures, spec section 4.4). -/
structure LedgerOps where
  transfer : Ledger → AssetId → AccountId → AccountId → Balance → Bool →
    Except String Ledger
  transfer_from : Ledger → AssetId → AccountId → AccountId → AccountId →
    Balance → Except String Ledger
  approve : Ledger → AssetId → AccountId → AccountId → Balance →
    Except String Ledger

/-- Declared base weights of the assets pallet operations used by the bridge:
`WeightInfo::transfer()` and `WeightInfo::approve_transfer()`. -/
structure WeightInfo where
  transfer : Nat
  approve_transfer : Nat

/-- Read-only call environment: the dispatching caller, the input buffer and
the caller-declared output capacity. -/
structure ExtEnv where
  caller : AccountId
  inputBuf : List Byte
  outputCapacity : Nat

/-- Mutable call state threaded through a dispatch: the ledger, the remaining
weight budget, the weight charged so far, the bytes written to the output
buffer, and the trace of mutating ledger calls attempted. -/
structure CallState where
  ledger : Ledger
  weightLeft : Nat
  charged : Nat
  output : List Byte
  mutateCalls : List LedgerCall

/-- Maximum value of a `u64` weight. -/
def UMAX64 : Nat := 2 ^ 64 - 1

/-- `u64::saturating_add`. -/
def satAdd64 (a b : Nat) : Nat := min (a + b) UMAX64

/-- The estimated cost charged for a mutating operation, from the source:
`base.saturating_add(base / 10)` (integer division). -/
def estimatedCost (base : Nat) : Nat := satAdd64 base (base / 10)

/-- Modelled from the spec: the host weight meter (`env.charge_weight`, in
`pallet_contracts`, outside this repository). Charging is atomic and fails
closed: on an insufficient budget it returns OutOfWeight and leaves no
partial charge applied. -/
def chargeWeight (amount : Nat) (st : CallState) :
    Except DispatchError CallState :=
  if amount ≤ st.weightLeft then
    Except.ok { st with
      weightLeft := st.weightLeft - amount,
      charged := st.charged + amount }
  else Except.error DispatchError.outOfWeight

/-- Modelled from the spec: the host output-write primitive (`env.write` with
`allow_skip = false`, in `pallet_contracts`, outside this repository). A
result larger than the caller-declared capacity fails and is never
truncated; otherwise the result becomes the output. -/
def envWrite (data : List Byte) (env : ExtEnv) (st : CallState) :
    Option CallState :=
  if data.length ≤ env.outputCapacity then some { st with output := data }
  else none

/-- Handler of selector 0x3d261bd4 (`PSP22Metadata::token_name`): decode the
asset id, encode `name(asset_id)`, write it out; a failed write becomes
`DispatchError::Other("ChainExtension failed to call token_name")`. -/
def tokenNameArm (env : ExtEnv) (st : CallState) :
    Except DispatchError RetVal × CallState :=
  match decodeLE 4 env.inputBuf with
  | none => (Except.error DispatchError.decodeFailure, st)
  | some (asset_id, _) =>
    let name := encodeByteVec (st.ledger.name asset_id)
    match envWrite name env st with
    | none =>
      (Except.error (DispatchError.other "ChainExtension failed to call token_name"), st)
    | some st1 => (Except.ok (RetVal.converging 0), st1)

/-- Handler of selector 0x34205be5 (`PSP22Metadata::token_symbol`). -/
def tokenSymbolArm (env : ExtEnv) (st : CallState) :
    Except DispatchError RetVal × CallState :=
  match decodeLE 4 env.inputBuf with
  | none => (Except.error DispatchError.decodeFailure, st)
  | some (asset_id, _) =>
    let symbol := encodeByteVec (st.ledger.symbol asset_id)
    match envWrite symbol env st with
    | none =>
      (Except.error (DispatchError.other "ChainExtension failed to call token_symbol"), st)
    | some st1 => (Except.ok (RetVal.converging 0), st1)

/-- Handler of selector 0x7271b782 (`PSP22Metadata::token_decimals`). -/
def tokenDecimalsArm (env : ExtEnv) (st : CallState) :
    Except DispatchError RetVal × CallState :=
  match decodeLE 4 env.inputBuf with
  | none => (Except.error DispatchError.decodeFailure, st)
  | some (asset_id, _) =>
    let decimals := encodeU8 (st.ledger.decimals asset_id)
    match envWrite decimals env st with
    | none =>
      (Except.error (DispatchError.other "ChainExtension failed to call token_decimals"), st)
    | some st1 => (Except.ok (RetVal.converging 0), st1)

/-- Handler of selector 0x162df8c2 (`PSP22::total_supply`). -/
def totalSupplyArm (env : ExtEnv) (st : CallState) :
    Except DispatchError RetVal × CallState :=
  match decodeLE 4 env.inputBuf with
  | none => (Except.error DispatchError.decodeFailure, st)
  | some (asset_id, _) =>
    let result := encodeLE 16 (st.ledger.total_issuance asset_id)
    match envWrite result env st with
    | none =>
      (Except.error (DispatchError.other "ChainExtension failed to call total_supply"), st)
    | some st1 => (Except.ok (RetVal.converging 0), st1)

/-- Handler of selector 0x6568382f (`PSP22::balance_of`): decode
`Psp22BalanceOfInput`, encode `balance(asset_id, owner)`, write it out.
No weight is pre-charged and no mutating ledger call is made. -/
def balanceOfArm (env : ExtEnv) (st : CallState) :
    Except DispatchError RetVal × CallState :=
  match Psp22BalanceOfInput.decode env.inputBuf with
  | none => (Except.error DispatchError.decodeFailure, st)
  | some (input, _) =>
    let result := encodeLE 16 (st.ledger.balance input.asset_id input.owner)
    match envWrite result env st with
    | none =>
      (Except.error (DispatchError.other "ChainExtension failed to call balance_of"), st)
    | some st1 => (Except.ok (RetVal.converging 0), st1)

/-- Handler of selector 0x4d47d921 (`PSP22::allowance`). -/
def allowanceArm (env : ExtEnv) (st : CallState) :
    Except DispatchError RetVal × CallState :=
  match Psp22AllowanceInput.decode env.inputBuf with
  | none => (Except.error DispatchError.decodeFailure, st)
  | some (input, _) =>
    let result :=
      encodeLE 16 (st.ledger.allowance input.asset_id input.owner input.spender)
    match envWrite result env st with
    | none =>
      (Except.error (DispatchError.other "ChainExtension failed to call allowance"), st)
    | some st1 => (Except.ok (RetVal.converging 0), st1)

/-- Handler of selector 0xdb20f9f5 (`PSP22::transfer`), translated line by
line from the source: charge `transfer_weight.saturating_add(transfer_weight
/ 10)` first, then decode `Psp22TransferInput`, then call
`transfer(asset_id, caller, to, value, true)` on the ledger; a ledger error
becomes `DispatchError::Other("ChainExtension failed to call transfer")`. -/
def transferArm (ops : LedgerOps) (wi : WeightInfo) (env : ExtEnv)
    (st : CallState) : Except DispatchError RetVal × CallState :=
  let transfer_weight := wi.transfer
  match chargeWeight (estimatedCost transfer_weight) st with
  | Except.error e => (Except.error e, st)
  | Except.ok st1 =>
    match Psp22TransferInput.decode env.inputBuf with
    | none => (Except.error DispatchError.decodeFailure, st1)
    | some (input, _) =>
      let sender := env.caller
      let st2 := { st1 with
        mutateCalls := st1.mutateCalls ++
          [LedgerCall.transfer input.asset_id sender input.dest input.value true] }
      match ops.transfer st2.ledger input.asset_id sender input.dest input.value true with
      | Except.error _ =>
        (Except.error (DispatchError.other "ChainExtension failed to call transfer"), st2)
      | Except.ok ledger1 =>
        (Except.ok (RetVal.converging 0), { st2 with ledger := ledger1 })

/-- Handler of selector 0x54b3c76e (`PSP22::transfer_from`): charges the
`transfer` base weight plus a tenth (as the source does), then decodes
`Psp22TransferFromInput`, then calls
`transfer_from(asset_id, caller, from, to, value)` on the ledger. -/
def transferFromArm (ops : LedgerOps) (wi : WeightInfo) (env : ExtEnv)
    (st : CallState) : Except DispatchError RetVal × CallState :=
  let transfer_fee := wi.transfer
  match chargeWeight (estimatedCost transfer_fee) st with
  | Except.error e => (Except.error e, st)
  | Except.ok st1 =>
    match Psp22TransferFromInput.decode env.inputBuf with
    | none => (Except.error DispatchError.decodeFailure, st1)
    | some (input, _) =>
      let sender := env.caller
      let st2 := { st1 with
        mutateCalls := st1.mutateCalls ++
          [LedgerCall.transfer_from input.asset_id sender input.source input.dest
            input.value] }
      match ops.transfer_from st2.ledger input.asset_id sender input.source
          input.dest input.value with
      | Except.error _ =>
        (Except.error (DispatchError.other "ChainExtension failed to call transfer_from"), st2)
      | Except.ok ledger1 =>
        (Except.ok (RetVal.converging 0), { st2 with ledger := ledger1 })

/-- Handler shared by selectors 0xb20f1bbd (`PSP22::approve`) and 0x96d6b57a
(`PSP22::increase_allowance`): charges the `approve_transfer` base weight
plus a tenth, then decodes `Psp22ApproveInput`, then calls
`approve(asset_id, caller, spender, value)` on the ledger. -/
def approveArm (ops : LedgerOps) (wi : WeightInfo) (env : ExtEnv)
    (st : CallState) : Except DispatchError RetVal × CallState :=
  let approve_weight := wi.approve_transfer
  match chargeWeight (estimatedCost approve_weight) st with
  | Except.error e => (Except.error e, st)
  | Except.ok st1 =>
    match Psp22ApproveInput.decode env.inputBuf with
    | none => (Except.error DispatchError.decodeFailure, st1)
    | some (input, _) =>
      let sender := env.caller
      let st2 := { st1 with
        mutateCalls := st1.mutateCalls ++
          [LedgerCall.approve input.asset_id sender input.spender input.value] }
      match ops.approve st2.ledger input.asset_id sender input.spender input.value with
      | Except.error _ =>
        (Except.error (DispatchError.other "ChainExtension failed to call approve"), st2)
      | Except.ok ledger1 =>
        (Except.ok (RetVal.converging 0), { st2 with ledger := ledger1 })

/-- The selector table of the bridge: every `func_id` the match recognizes,
including the recognized-but-unimplemented 0xfecb57d5. -/
def selectorTable : List Nat :=
  [0x3d261bd4, 0x34205be5, 0x7271b782, 0x162df8c2, 0x6568382f, 0x4d47d921,
   0xdb20f9f5, 0x54b3c76e, 0xb20f1bbd, 0x96d6b57a, 0xfecb57d5]

/-- The dispatcher `Psp22Extension::call`, translated arm by arm from the
source match on `func_id`. Selector 0xfecb57d5 (decrease_allowance) returns
`Err(DispatchError::Other("Unimplemented func_id"))`; the default arm logs at
error severity and returns the same
`Err(DispatchError::Other("Unimplemented func_id"))`. -/
def dispatch (ops : LedgerOps) (wi : WeightInfo) (func_id : Nat)
    (env : ExtEnv) (st : CallState) : Except DispatchError RetVal × CallState :=
  if func_id = 0x3d261bd4 then tokenNameArm env st
  else if func_id = 0x34205be5 then tokenSymbolArm env st
  else if func_id = 0x7271b782 then tokenDecimalsArm env st
  else if func_id = 0x162df8c2 then totalSupplyArm env st
  else if func_id = 0x6568382f then balanceOfArm env st
  else if func_id = 0x4d47d921 then allowanceArm env st
  else if func_id = 0xdb20f9f5 then transferArm ops wi env st
  else if func_id = 0x54b3c76e then transferFromArm ops wi env st
  else if func_id = 0xb20f1bbd ∨ func_id = 0x96d6b57a then approveArm ops wi env st
  else if func_id = 0xfecb57d5 then
    (Except.error (DispatchError.other "Unimplemented func_id"), st)
  else
    (Except.error (DispatchError.other "Unimplemented func_id"), st)

/-- Modelled from the spec: a minimal concrete assets-ledger state, used to
instantiate theorems at concrete inputs (the ledger internals belong to the
external collaborator of spec sections 1 and 4.4, not to this repository). -/
def testLedger : Ledger where
  name := fun _ => [84, 73]
  symbol := fun _ => [84]
  decimals := fun _ => 12
  total_issuance := fun _ => 1000
  balance := fun _ _ => 100
  allowance := fun _ _ _ => 0

/-- Modelled from the spec: the balance view after moving value from the
source account to the dest account. -/
def movedBalance (l : Ledger) (asset : AssetId) (source dest : AccountId)
    (value : Balance) : AssetId → AccountId → Balance := fun a acc =>
  if a = asset ∧ acc = dest then l.balance a acc + value
  else if a = asset ∧ acc = source then l.balance a acc - value
  else l.balance a acc

/-- Modelled from the spec: the allowance view after reducing the allowance of
spender on the owner account by value. -/
def reducedAllowance (l : Ledger) (asset : AssetId) (owner spender : AccountId)
    (value : Balance) : AssetId → AccountId → AccountId → Balance := fun a o s =>
  if a = asset ∧ o = owner ∧ s = spender then l.allowance a o s - value
  else l.allowance a o s

/-- Modelled from the spec: the allowance view after setting the allowance of
spender on the owner account to value. -/
def setAllowance (l : Ledger) (asset : AssetId) (owner spender : AccountId)
    (value : Balance) : AssetId → AccountId → AccountId → Balance := fun a o s =>
  if a = asset ∧ o = owner ∧ s = spender then value else l.allowance a o s

/-- Modelled from the spec: a reference implementation of the mutating ledger
interface of section 4.4; every mutate call is atomic, either fully applying
or returning an error and leaving the ledger as given. -/
def specOps : LedgerOps where
  transfer := fun l asset source dest value _keep_alive =>
    if value ≤ l.balance asset source then
      Except.ok { l with balance := movedBalance l asset source dest value }
    else Except.error "BalanceLow"
  transfer_from := fun l asset spender source dest value =>
    if value ≤ l.allowance asset source spender ∧ value ≤ l.balance asset source then
      Except.ok { l with
        balance := movedBalance l asset source dest value,
        allowance := reducedAllowance l asset source spender value }
    else Except.error "Unapproved"
  approve := fun l asset owner spender value =>
    Except.ok { l with allowance := setAllowance l asset owner spender value }

/-- A sample caller account: 32 bytes of value 1. -/
def acct1 : AccountId := List.replicate 32 1

/-- A sample destination account: 32 bytes of value 2. -/
def acct2 : AccountId := List.replicate 32 2

/-- A sample spender account: 32 bytes of value 3. -/
def acct3 : AccountId := List.replicate 32 3

/-- Sample base weights (divisible by ten). -/
def testWeights : WeightInfo where
  transfer := 1000
  approve_transfer := 500

/-- Sample base weights not divisible by ten. -/
def oddWeights : WeightInfo where
  transfer := 15
  approve_transfer := 15

theorem dispatch_token_name (ops : LedgerOps) (wi : WeightInfo) (env : ExtEnv)
    (st : CallState) : dispatch ops wi 0x3d261bd4 env st = tokenNameArm env st := rfl

theorem dispatch_token_symbol (ops : LedgerOps) (wi : WeightInfo) (env : ExtEnv)
    (st : CallState) : dispatch ops wi 0x34205be5 env st = tokenSymbolArm env st := rfl

theorem dispatch_token_decimals (ops : LedgerOps) (wi : WeightInfo) (env : ExtEnv)
    (st : CallState) : dispatch ops wi 0x7271b782 env st = tokenDecimalsArm env st := rfl

theorem dispatch_total_supply (ops : LedgerOps) (wi : WeightInfo) (env : ExtEnv)
    (st : CallState) : dispatch ops wi 0x162df8c2 env st = totalSupplyArm env st := rfl

theorem dispatch_balance_of (ops : LedgerOps) (wi : WeightInfo) (env : ExtEnv)
    (st : CallState) : dispatch ops wi 0x6568382f env st = balanceOfArm env st := rfl

theorem dispatch_allowance (ops : LedgerOps) (wi : WeightInfo) (env : ExtEnv)
    (st : CallState) : dispatch ops wi 0x4d47d921 env st = allowanceArm env st := rfl

theorem dispatch_transfer (ops : LedgerOps) (wi : WeightInfo) (env : ExtEnv)
    (st : CallState) : dispatch ops wi 0xdb20f9f5 env st = transferArm ops wi env st := rfl

theorem dispatch_transfer_from (ops : LedgerOps) (wi : WeightInfo) (env : ExtEnv)
    (st : CallState) : dispatch ops wi 0x54b3c76e env st = transferFromArm ops wi env st := rfl

theorem dispatch_approve (ops : LedgerOps) (wi : WeightInfo) (env : ExtEnv)
    (st : CallState) : dispatch ops wi 0xb20f1bbd env st = approveArm ops wi env st := rfl

theorem dispatch_increase_allowance (ops : LedgerOps) (wi : WeightInfo) (env : ExtEnv)
    (st : CallState) : dispatch ops wi 0x96d6b57a env st = approveArm ops wi env st := rfl

theorem dispatch_decrease_allowance (ops : LedgerOps) (wi : WeightInfo) (env : ExtEnv)
    (st : CallState) : dispatch ops wi 0xfecb57d5 env st =
      (Except.error (DispatchError.other "Unimplemented func_id"), st) := rfl

theorem dispatch_default (ops : LedgerOps) (wi : WeightInfo) (func_id : Nat)
    (env : ExtEnv) (st : CallState) (h : func_id ∉ selectorTable) :
    dispatch ops wi func_id env st =
      (Except.error (DispatchError.other "Unimplemented func_id"), st) := by
  simp only [selectorTable, List.mem_cons, List.not_mem_nil, or_false, not_or] at h
  obtain ⟨h1, h2, h3, h4, h5, h6, h7, h8, h9, h10, h11⟩ := h
  simp only [dispatch, h1, h2, h3, h4, h5, h6, h7, h8, h9, h10, h11, if_false,
    ite_false, or_self, if_neg (fun hc => absurd hc (not_or.mpr ⟨h9, h10⟩))]

theorem chargeWeight_of_le {amount : Nat} {st : CallState}
    (h : amount ≤ st.weightLeft) :
    chargeWeight amount st = Except.ok { st with
      weightLeft := st.weightLeft - amount, charged := st.charged + amount } := by
  simp [chargeWeight, h]

theorem chargeWeight_of_gt {amount : Nat} {st : CallState}
    (h : st.weightLeft < amount) :
    chargeWeight amount st = Except.error DispatchError.outOfWeight := by
  simp [chargeWeight, Nat.not_le.mpr h]

theorem envWrite_of_le {data : List Byte} {env : ExtEnv} {st : CallState}
    (h : data.length ≤ env.outputCapacity) :
    envWrite data env st = some { st with output := data } := by
  simp [envWrite, h]

theorem envWrite_of_gt {data : List Byte} {env : ExtEnv} {st : CallState}
    (h : env.outputCapacity < data.length) :
    envWrite data env st = none := by
  simp [envWrite, Nat.not_le.mpr h]

/-- A sample call environment: caller acct1, empty input buffer, output
capacity 64. -/
def testEnv : ExtEnv where
  caller := acct1
  inputBuf := []
  outputCapacity := 64

/-- A sample call state with a large weight budget, nothing charged, empty
output and no ledger calls yet. -/
def testState : CallState where
  ledger := testLedger
  weightLeft := 1000000
  charged := 0
  output := []
  mutateCalls := []

/-- C8: for every valid request value of each of the five request types,
decoding the encoding of the value yields the value back (trailing bytes are
returned untouched); instantiating rest with the empty list gives
decode(encode(value)) == value exactly. -/
theorem c8_roundtrip (a : AssetId) (o1 o2 : AccountId) (v : Balance)
    (rest : List Byte) (ha : a < 2 ^ 32) (h1 : ValidAccount o1)
    (h2 : ValidAccount o2) (hv : v < 2 ^ 128) :
    Psp22BalanceOfInput.decode (Psp22BalanceOfInput.encode ⟨a, o1⟩ ++ rest) =
        some (⟨a, o1⟩, rest) ∧
    Psp22AllowanceInput.decode (Psp22AllowanceInput.encode ⟨a, o1, o2⟩ ++ rest) =
        some (⟨a, o1, o2⟩, rest) ∧
    Psp22TransferInput.decode (Psp22TransferInput.encode ⟨a, o1, v⟩ ++ rest) =
        some (⟨a, o1, v⟩, rest) ∧
    Psp22TransferFromInput.decode
        (Psp22TransferFromInput.encode ⟨a, o1, o2, v⟩ ++ rest) =
        some (⟨a, o1, o2, v⟩, rest) ∧
    Psp22ApproveInput.decode (Psp22ApproveInput.encode ⟨a, o1, v⟩ ++ rest) =
        some (⟨a, o1, v⟩, rest) := by
  have e32 : (2 : Nat) ^ 32 = 256 ^ 4 := by norm_num
  have e128 : (2 : Nat) ^ 128 = 256 ^ 16 := by norm_num
  refine ⟨?_, ?_, ?_, ?_, ?_⟩
  · simp only [Psp22BalanceOfInput.encode, Psp22BalanceOfInput.decode,
      List.append_assoc, decodeLE_encodeLE_of_lt (e32 ▸ ha),
      decodeBytes_append h1.1]
  · simp only [Psp22AllowanceInput.encode, Psp22AllowanceInput.decode,
      List.append_assoc, decodeLE_encodeLE_of_lt (e32 ▸ ha),
      decodeBytes_append h1.1, decodeBytes_append h2.1]
  · simp only [Psp22TransferInput.encode, Psp22TransferInput.decode,
      List.append_assoc, decodeLE_encodeLE_of_lt (e32 ▸ ha),
      decodeBytes_append h1.1, decodeLE_encodeLE_of_lt (e128 ▸ hv)]
  · simp only [Psp22TransferFromInput.encode, Psp22TransferFromInput.decode,
      List.append_assoc, decodeLE_encodeLE_of_lt (e32 ▸ ha),
      decodeBytes_append h1.1, decodeBytes_append h2.1,
      decodeLE_encodeLE_of_lt (e128 ▸ hv)]
  · simp only [Psp22ApproveInput.encode, Psp22ApproveInput.decode,
      List.append_assoc, decodeLE_encodeLE_of_lt (e32 ▸ ha),
      decodeBytes_append h1.1, decodeLE_encodeLE_of_lt (e128 ▸ hv)]

theorem c8_witness :
    ((7 : Nat) < 2 ^ 32 ∧ ValidAccount acct1 ∧ ValidAccount acct2 ∧
      (500 : Nat) < 2 ^ 128) ∧
    (Psp22BalanceOfInput.decode (Psp22BalanceOfInput.encode ⟨7, acct1⟩ ++ []) =
        some (⟨7, acct1⟩, []) ∧
     Psp22AllowanceInput.decode (Psp22AllowanceInput.encode ⟨7, acct1, acct2⟩ ++ []) =
        some (⟨7, acct1, acct2⟩, []) ∧
     Psp22TransferInput.decode (Psp22TransferInput.encode ⟨7, acct1, 500⟩ ++ []) =
        some (⟨7, acct1, 500⟩, []) ∧
     Psp22TransferFromInput.decode
        (Psp22TransferFromInput.encode ⟨7, acct1, acct2, 500⟩ ++ []) =
        some (⟨7, acct1, acct2, 500⟩, []) ∧
     Psp22ApproveInput.decode (Psp22ApproveInput.encode ⟨7, acct1, 500⟩ ++ []) =
        some (⟨7, acct1, 500⟩, [])) :=
  ⟨⟨by norm_num, by decide, by decide, by norm_num⟩,
   c8_roundtrip 7 acct1 acct2 500 [] (by norm_num) (by decide) (by decide)
     (by norm_num)⟩

/-- C5: selectors 0xb20f1bbd and 0x96d6b57a route to the very same approve
handler, so with identical input bytes, caller, weights, ledger interface and
state the two dispatches are equal as functions: identical results and
identical ledger effects, in particular identical resulting allowances. -/
theorem c5_approve_aliases (ops : LedgerOps) (wi : WeightInfo) (env : ExtEnv)
    (st : CallState) :
    dispatch ops wi 0xb20f1bbd env st = dispatch ops wi 0x96d6b57a env st := rfl

/-- C1 (counterexample): at a concrete input, the caller-visible error
returned for selector 0xfecb57d5 (decrease allowance) is exactly the error
returned for the absent selector 0xdeadbeef, so the two cases are not
distinguishable by the caller, contrary to the claim. -/
theorem c1_counterexample :
    (dispatch specOps testWeights 0xfecb57d5 testEnv testState).1 =
      (dispatch specOps testWeights 0xdeadbeef testEnv testState).1 := rfl

/-- C1 (amended): dispatch on 0xfecb57d5 fails, with no side effects, with
the error Other "Unimplemented func_id" — the same caller-visible error
value produced by every selector absent from the table, so the two cases are
told apart only in operator-facing logs, not by the caller. -/
theorem c1_unimplemented_error (ops : LedgerOps) (wi : WeightInfo)
    (env : ExtEnv) (st : CallState) (f : Nat) (hf : f ∉ selectorTable) :
    dispatch ops wi 0xfecb57d5 env st =
      (Except.error (DispatchError.other "Unimplemented func_id"), st) ∧
    dispatch ops wi 0xfecb57d5 env st = dispatch ops wi f env st := by
  refine ⟨rfl, ?_⟩
  rw [dispatch_default ops wi f env st hf, dispatch_decrease_allowance]

theorem c1_witness :
    (0xdeadbeef : Nat) ∉ selectorTable ∧
    (dispatch specOps testWeights 0xfecb57d5 testEnv testState =
        (Except.error (DispatchError.other "Unimplemented func_id"), testState) ∧
     dispatch specOps testWeights 0xfecb57d5 testEnv testState =
        dispatch specOps testWeights 0xdeadbeef testEnv testState) :=
  ⟨by decide,
   c1_unimplemented_error specOps testWeights testEnv testState 0xdeadbeef
     (by decide)⟩

/-- C7: dispatch on any selector absent from the table fails with the
unknown-selector error (spelled Other "Unimplemented func_id" in the code)
and returns the call state completely unchanged: zero bytes written to the
output, no weight charged, no ledger call. -/
theorem c7_unknown_selector (ops : LedgerOps) (wi : WeightInfo)
    (func_id : Nat) (env : ExtEnv) (st : CallState)
    (h : func_id ∉ selectorTable) :
    dispatch ops wi func_id env st =
      (Except.error (DispatchError.other "Unimplemented func_id"), st) :=
  dispatch_default ops wi func_id env st h

theorem c7_witness :
    (0xdeadbeef : Nat) ∉ selectorTable ∧
    dispatch specOps testWeights 0xdeadbeef testEnv testState =
      (Except.error (DispatchError.other "Unimplemented func_id"), testState) :=
  ⟨by decide,
   c7_unknown_selector specOps testWeights 0xdeadbeef testEnv testState
     (by decide)⟩

theorem transferArm_charged (ops : LedgerOps) (wi : WeightInfo) (env : ExtEnv)
    (st : CallState) (h : estimatedCost wi.transfer ≤ st.weightLeft) :
    (transferArm ops wi env st).2.charged =
      st.charged + estimatedCost wi.transfer := by
  simp only [transferArm, chargeWeight_of_le h]
  cases hd : Psp22TransferInput.decode env.inputBuf with
  | none => rfl
  | some p => split <;> first | rfl | (split <;> rfl)

theorem transferFromArm_charged (ops : LedgerOps) (wi : WeightInfo)
    (env : ExtEnv) (st : CallState)
    (h : estimatedCost wi.transfer ≤ st.weightLeft) :
    (transferFromArm ops wi env st).2.charged =
      st.charged + estimatedCost wi.transfer := by
  simp only [transferFromArm, chargeWeight_of_le h]
  cases hd : Psp22TransferFromInput.decode env.inputBuf with
  | none => rfl
  | some p => split <;> first | rfl | (split <;> rfl)

theorem approveArm_charged (ops : LedgerOps) (wi : WeightInfo) (env : ExtEnv)
    (st : CallState) (h : estimatedCost wi.approve_transfer ≤ st.weightLeft) :
    (approveArm ops wi env st).2.charged =
      st.charged + estimatedCost wi.approve_transfer := by
  simp only [approveArm, chargeWeight_of_le h]
  cases hd : Psp22ApproveInput.decode env.inputBuf with
  | none => rfl
  | some p => split <;> first | rfl | (split <;> rfl)

/-- C2 (amended): for every mutating operation the amount charged before
execution equals base.saturating_add(base / 10) with integer (floor)
division, where base is the declared base weight of the operation
(WeightInfo transfer for both transfer selectors, WeightInfo
approve_transfer for both approve selectors). This equals exactly
base * 1.1 when base is divisible by ten and the sum does not saturate;
otherwise it falls short of base * 1.1 by the truncated fraction. -/
theorem c2_margin_charge (ops : LedgerOps) (wi : WeightInfo) (env : ExtEnv)
    (st : CallState)
    (ht : estimatedCost wi.transfer ≤ st.weightLeft)
    (ha : estimatedCost wi.approve_transfer ≤ st.weightLeft) :
    ((dispatch ops wi 0xdb20f9f5 env st).2.charged =
        st.charged + estimatedCost wi.transfer ∧
     (dispatch ops wi 0x54b3c76e env st).2.charged =
        st.charged + estimatedCost wi.transfer ∧
     (dispatch ops wi 0xb20f1bbd env st).2.charged =
        st.charged + estimatedCost wi.approve_transfer ∧
     (dispatch ops wi 0x96d6b57a env st).2.charged =
        st.charged + estimatedCost wi.approve_transfer) ∧
    (∀ w : Nat, w % 10 = 0 → w + w / 10 ≤ UMAX64 →
      (estimatedCost w : ℚ) = 1.1 * (w : ℚ)) := by
  refine ⟨⟨?_, ?_, ?_, ?_⟩, ?_⟩
  · rw [dispatch_transfer]; exact transferArm_charged ops wi env st ht
  · rw [dispatch_transfer_from]; exact transferFromArm_charged ops wi env st ht
  · rw [dispatch_approve]; exact approveArm_charged ops wi env st ha
  · rw [dispatch_increase_allowance]; exact approveArm_charged ops wi env st ha
  · intro w hw hs
    obtain ⟨k, hk⟩ := Nat.dvd_of_mod_eq_zero hw
    subst hk
    have hdiv : 10 * k / 10 = k := by omega
    have hcost : estimatedCost (10 * k) = 10 * k + k := by
      rw [estimatedCost, satAdd64, hdiv]
      rw [hdiv] at hs
      exact min_eq_left hs
    rw [hcost]
    push_cast
    ring_nf

/-- C2 (counterexample): with a declared base transfer weight of 15 the
transfer dispatch charges 16 = 15 + 15 / 10 (integer division), but
15 * 1.1 = 16.5, so the charge does not equal base * 1.1 exactly. -/
theorem c2_counterexample :
    (dispatch specOps oddWeights 0xdb20f9f5 testEnv testState).2.charged = 16 ∧
    (16 : ℚ) ≠ 1.1 * (15 : ℚ) := by
  refine ⟨rfl, ?_⟩
  norm_num

theorem c2_witness :
    (estimatedCost testWeights.transfer ≤ testState.weightLeft ∧
     estimatedCost testWeights.approve_transfer ≤ testState.weightLeft ∧
     testWeights.transfer % 10 = 0 ∧
     testWeights.transfer + testWeights.transfer / 10 ≤ UMAX64) ∧
    ((dispatch specOps testWeights 0xdb20f9f5 testEnv testState).2.charged =
        testState.charged + estimatedCost testWeights.transfer ∧
     (dispatch specOps testWeights 0x54b3c76e testEnv testState).2.charged =
        testState.charged + estimatedCost testWeights.transfer ∧
     (dispatch specOps testWeights 0xb20f1bbd testEnv testState).2.charged =
        testState.charged + estimatedCost testWeights.approve_transfer ∧
     (dispatch specOps testWeights 0x96d6b57a testEnv testState).2.charged =
        testState.charged + estimatedCost testWeights.approve_transfer) ∧
    (estimatedCost testWeights.transfer : ℚ) = 1.1 * (testWeights.transfer : ℚ) :=
  ⟨⟨by decide, by decide, by decide, by decide⟩,
   (c2_margin_charge specOps testWeights testEnv testState (by decide)
      (by decide)).1,
   (c2_margin_charge specOps testWeights testEnv testState (by decide)
      (by decide)).2 testWeights.transfer (by decide) (by decide)⟩

/-- C3: for every mutating selector the weight charge is performed before
input decoding: with a malformed input buffer and a sufficient budget the
estimated cost is still charged, the dispatch fails with decodeFailure, and
the ledger, the call trace and the output are untouched. -/
theorem c3_charge_precedes_decode (ops : LedgerOps) (wi : WeightInfo)
    (env : ExtEnv) (st : CallState) :
    (Psp22TransferInput.decode env.inputBuf = none →
      estimatedCost wi.transfer ≤ st.weightLeft →
      dispatch ops wi 0xdb20f9f5 env st =
        (Except.error DispatchError.decodeFailure,
         { st with weightLeft := st.weightLeft - estimatedCost wi.transfer,
                   charged := st.charged + estimatedCost wi.transfer })) ∧
    (Psp22TransferFromInput.decode env.inputBuf = none →
      estimatedCost wi.transfer ≤ st.weightLeft →
      dispatch ops wi 0x54b3c76e env st =
        (Except.error DispatchError.decodeFailure,
         { st with weightLeft := st.weightLeft - estimatedCost wi.transfer,
                   charged := st.charged + estimatedCost wi.transfer })) ∧
    (Psp22ApproveInput.decode env.inputBuf = none →
      estimatedCost wi.approve_transfer ≤ st.weightLeft →
      dispatch ops wi 0xb20f1bbd env st =
        (Except.error DispatchError.decodeFailure,
         { st with
             weightLeft := st.weightLeft - estimatedCost wi.approve_transfer,
             charged := st.charged + estimatedCost wi.approve_transfer })) ∧
    (Psp22ApproveInput.decode env.inputBuf = none →
      estimatedCost wi.approve_transfer ≤ st.weightLeft →
      dispatch ops wi 0x96d6b57a env st =
        (Except.error DispatchError.decodeFailure,
         { st with
             weightLeft := st.weightLeft - estimatedCost wi.approve_transfer,
             charged := st.charged + estimatedCost wi.approve_transfer })) := by
  refine ⟨?_, ?_, ?_, ?_⟩ <;> intro hd hw
  · rw [dispatch_transfer]
    simp only [transferArm, chargeWeight_of_le hw, hd]
  · rw [dispatch_transfer_from]
    simp only [transferFromArm, chargeWeight_of_le hw, hd]
  · rw [dispatch_approve]
    simp only [approveArm, chargeWeight_of_le hw, hd]
  · rw [dispatch_increase_allowance]
    simp only [approveArm, chargeWeight_of_le hw, hd]

theorem c3_witness :
    (Psp22TransferInput.decode testEnv.inputBuf = none ∧
     Psp22TransferFromInput.decode testEnv.inputBuf = none ∧
     Psp22ApproveInput.decode testEnv.inputBuf = none ∧
     estimatedCost testWeights.transfer ≤ testState.weightLeft ∧
     estimatedCost testWeights.approve_transfer ≤ testState.weightLeft) ∧
    (dispatch specOps testWeights 0xdb20f9f5 testEnv testState =
        (Except.error DispatchError.decodeFailure,
         { testState with
             weightLeft :=
               testState.weightLeft - estimatedCost testWeights.transfer,
             charged :=
               testState.charged + estimatedCost testWeights.transfer }) ∧
     dispatch specOps testWeights 0x54b3c76e testEnv testState =
        (Except.error DispatchError.decodeFailure,
         { testState with
             weightLeft :=
               testState.weightLeft - estimatedCost testWeights.transfer,
             charged :=
               testState.charged + estimatedCost testWeights.transfer }) ∧
     dispatch specOps testWeights 0xb20f1bbd testEnv testState =
        (Except.error DispatchError.decodeFailure,
         { testState with
             weightLeft :=
               testState.weightLeft - estimatedCost testWeights.approve_transfer,
             charged :=
               testState.charged + estimatedCost testWeights.approve_transfer }) ∧
     dispatch specOps testWeights 0x96d6b57a testEnv testState =
        (Except.error DispatchError.decodeFailure,
         { testState with
             weightLeft :=
               testState.weightLeft - estimatedCost testWeights.approve_transfer,
             charged :=
               testState.charged + estimatedCost testWeights.approve_transfer })) :=
  ⟨⟨by decide, by decide, by decide, by decide, by decide⟩,
   (c3_charge_precedes_decode specOps testWeights testEnv testState).1
     (by decide) (by decide),
   (c3_charge_precedes_decode specOps testWeights testEnv testState).2.1
     (by decide) (by decide),
   (c3_charge_precedes_decode specOps testWeights testEnv testState).2.2.1
     (by decide) (by decide),
   (c3_charge_precedes_decode specOps testWeights testEnv testState).2.2.2
     (by decide) (by decide)⟩

/-- C4: dispatch on the transfer selector with an insufficient weight budget
fails with outOfWeight and returns the call state completely unchanged: no
partial charge remains applied, no ledger call is recorded, and every ledger
balance is as before. -/
theorem c4_out_of_weight (ops : LedgerOps) (wi : WeightInfo) (env : ExtEnv)
    (st : CallState) (h : st.weightLeft < estimatedCost wi.transfer) :
    dispatch ops wi 0xdb20f9f5 env st =
      (Except.error DispatchError.outOfWeight, st) := by
  rw [dispatch_transfer]
  simp only [transferArm, chargeWeight_of_gt h]

/-- A call state with an exhausted weight budget. -/
def poorState : CallState where
  ledger := testLedger
  weightLeft := 0
  charged := 0
  output := []
  mutateCalls := []

theorem c4_witness :
    poorState.weightLeft < estimatedCost testWeights.transfer ∧
    dispatch specOps testWeights 0xdb20f9f5 testEnv poorState =
      (Except.error DispatchError.outOfWeight, poorState) :=
  ⟨by decide,
   c4_out_of_weight specOps testWeights testEnv poorState (by decide)⟩

/-- C6: dispatch on the balance_of selector with a well-formed input buffer
(and a sufficient output capacity) succeeds converging, with the current
balance(asset, owner) of the ledger SCALE-encoded as the whole output; no
weight is charged, the ledger is untouched and no mutating ledger call is
recorded. -/
theorem c6_balance_of (ops : LedgerOps) (wi : WeightInfo) (env : ExtEnv)
    (st : CallState) (input : Psp22BalanceOfInput) (rest : List Byte)
    (hd : Psp22BalanceOfInput.decode env.inputBuf = some (input, rest))
    (hcap : (encodeLE 16 (st.ledger.balance input.asset_id input.owner)).length ≤
      env.outputCapacity) :
    dispatch ops wi 0x6568382f env st =
      (Except.ok (RetVal.converging 0),
       { st with
           output := encodeLE 16 (st.ledger.balance input.asset_id input.owner) }) := by
  rw [dispatch_balance_of]
  simp only [balanceOfArm, hd, envWrite_of_le hcap]

/-- An environment whose input buffer is a well-formed balance_of request for
asset 5 and owner acct2. -/
def balEnv : ExtEnv where
  caller := acct1
  inputBuf := Psp22BalanceOfInput.encode ⟨5, acct2⟩
  outputCapacity := 64

theorem c6_witness :
    (Psp22BalanceOfInput.decode balEnv.inputBuf = some (⟨5, acct2⟩, []) ∧
     (encodeLE 16 (testState.ledger.balance 5 acct2)).length ≤
       balEnv.outputCapacity) ∧
    dispatch specOps testWeights 0x6568382f balEnv testState =
      (Except.ok (RetVal.converging 0),
       { testState with
           output := encodeLE 16 (testState.ledger.balance 5 acct2) }) :=
  ⟨⟨by decide, by decide⟩,
   c6_balance_of specOps testWeights balEnv testState ⟨5, acct2⟩ []
     (by decide) (by decide)⟩

/-- C9: for each of the six result-writing operations, an encoded result
larger than the caller-declared output capacity makes the dispatch fail with
the output-too-large error of that arm (surfaced as the arm-specific Other
message), and the call state is returned unchanged: the result is never
silently truncated into the buffer. -/
theorem c9_output_too_large (ops : LedgerOps) (wi : WeightInfo) (env : ExtEnv)
    (st : CallState) :
    (∀ a rest, decodeLE 4 env.inputBuf = some (a, rest) →
      env.outputCapacity < (encodeByteVec (st.ledger.name a)).length →
      dispatch ops wi 0x3d261bd4 env st =
        (Except.error
          (DispatchError.other "ChainExtension failed to call token_name"), st)) ∧
    (∀ a rest, decodeLE 4 env.inputBuf = some (a, rest) →
      env.outputCapacity < (encodeByteVec (st.ledger.symbol a)).length →
      dispatch ops wi 0x34205be5 env st =
        (Except.error
          (DispatchError.other "ChainExtension failed to call token_symbol"), st)) ∧
    (∀ a rest, decodeLE 4 env.inputBuf = some (a, rest) →
      env.outputCapacity < (encodeU8 (st.ledger.decimals a)).length →
      dispatch ops wi 0x7271b782 env st =
        (Except.error
          (DispatchError.other "ChainExtension failed to call token_decimals"), st)) ∧
    (∀ a rest, decodeLE 4 env.inputBuf = some (a, rest) →
      env.outputCapacity < (encodeLE 16 (st.ledger.total_issuance a)).length →
      dispatch ops wi 0x162df8c2 env st =
        (Except.error
          (DispatchError.other "ChainExtension failed to call total_supply"), st)) ∧
    (∀ input rest, Psp22BalanceOfInput.decode env.inputBuf = some (input, rest) →
      env.outputCapacity <
        (encodeLE 16 (st.ledger.balance input.asset_id input.owner)).length →
      dispatch ops wi 0x6568382f env st =
        (Except.error
          (DispatchError.other "ChainExtension failed to call balance_of"), st)) ∧
    (∀ input rest, Psp22AllowanceInput.decode env.inputBuf = some (input, rest) →
      env.outputCapacity <
        (encodeLE 16
          (st.ledger.allowance input.asset_id input.owner input.spender)).length →
      dispatch ops wi 0x4d47d921 env st =
        (Except.error
          (DispatchError.other "ChainExtension failed to call allowance"), st)) := by
  refine ⟨?_, ?_, ?_, ?_, ?_, ?_⟩ <;> intro a rest hd hcap
  · rw [dispatch_token_name]
    simp only [tokenNameArm, hd, envWrite_of_gt hcap]
  · rw [dispatch_token_symbol]
    simp only [tokenSymbolArm, hd, envWrite_of_gt hcap]
  · rw [dispatch_token_decimals]
    simp only [tokenDecimalsArm, hd, envWrite_of_gt hcap]
  · rw [dispatch_total_supply]
    simp only [totalSupplyArm, hd, envWrite_of_gt hcap]
  · rw [dispatch_balance_of]
    simp only [balanceOfArm, hd, envWrite_of_gt hcap]
  · rw [dispatch_allowance]
    simp only [allowanceArm, hd, envWrite_of_gt hcap]

/-- An environment with zero output capacity whose input buffer decodes as an
asset id, as a balance_of request and as an allowance request. -/
def tinyEnv : ExtEnv where
  caller := acct1
  inputBuf := encodeLE 4 5 ++ acct2 ++ acct3
  outputCapacity := 0

theorem c9_witness :
    (decodeLE 4 tinyEnv.inputBuf = some (5, acct2 ++ acct3) ∧
     Psp22BalanceOfInput.decode tinyEnv.inputBuf = some (⟨5, acct2⟩, acct3) ∧
     Psp22AllowanceInput.decode tinyEnv.inputBuf = some (⟨5, acct2, acct3⟩, []) ∧
     tinyEnv.outputCapacity < (encodeByteVec (testState.ledger.name 5)).length ∧
     tinyEnv.outputCapacity < (encodeByteVec (testState.ledger.symbol 5)).length ∧
     tinyEnv.outputCapacity < (encodeU8 (testState.ledger.decimals 5)).length ∧
     tinyEnv.outputCapacity <
       (encodeLE 16 (testState.ledger.total_issuance 5)).length ∧
     tinyEnv.outputCapacity <
       (encodeLE 16 (testState.ledger.balance 5 acct2)).length ∧
     tinyEnv.outputCapacity <
       (encodeLE 16 (testState.ledger.allowance 5 acct2 acct3)).length) ∧
    (dispatch specOps testWeights 0x3d261bd4 tinyEnv testState =
        (Except.error
          (DispatchError.other "ChainExtension failed to call token_name"),
         testState) ∧
     dispatch specOps testWeights 0x34205be5 tinyEnv testState =
        (Except.error
          (DispatchError.other "ChainExtension failed to call token_symbol"),
         testState) ∧
     dispatch specOps testWeights 0x7271b782 tinyEnv testState =
        (Except.error
          (DispatchError.other "ChainExtension failed to call token_decimals"),
         testState) ∧
     dispatch specOps testWeights 0x162df8c2 tinyEnv testState =
        (Except.error
          (DispatchError.other "ChainExtension failed to call total_supply"),
         testState) ∧
     dispatch specOps testWeights 0x6568382f tinyEnv testState =
        (Except.error
          (DispatchError.other "ChainExtension failed to call balance_of"),
         testState) ∧
     dispatch specOps testWeights 0x4d47d921 tinyEnv testState =
        (Except.error
          (DispatchError.other "ChainExtension failed to call allowance"),
         testState)) :=
  ⟨⟨by decide, by decide, by decide, by decide, by decide, by decide, by decide,
    by decide, by decide⟩,
   (c9_output_too_large specOps testWeights tinyEnv testState).1 5
     (acct2 ++ acct3) (by decide) (by decide),
   (c9_output_too_large specOps testWeights tinyEnv testState).2.1 5
     (acct2 ++ acct3) (by decide) (by decide),
   (c9_output_too_large specOps testWeights tinyEnv testState).2.2.1 5
     (acct2 ++ acct3) (by decide) (by decide),
   (c9_output_too_large specOps testWeights tinyEnv testState).2.2.2.1 5
     (acct2 ++ acct3) (by decide) (by decide),
   (c9_output_too_large specOps testWeights tinyEnv testState).2.2.2.2.1
     ⟨5, acct2⟩ acct3 (by decide) (by decide),
   (c9_output_too_large specOps testWeights tinyEnv testState).2.2.2.2.2
     ⟨5, acct2, acct3⟩ [] (by decide) (by decide)⟩

/-- C10: in every well-formed transfer dispatch the ledger transfer is
invoked exactly once, with the dispatching caller as the source account
(never an account taken from the input bytes, which only carry the
destination) and with keep_alive = true. -/
theorem c10_transfer_caller_keep_alive (ops : LedgerOps) (wi : WeightInfo)
    (env : ExtEnv) (st : CallState) (input : Psp22TransferInput)
    (rest : List Byte) (hw : estimatedCost wi.transfer ≤ st.weightLeft)
    (hd : Psp22TransferInput.decode env.inputBuf = some (input, rest)) :
    (dispatch ops wi 0xdb20f9f5 env st).2.mutateCalls =
      st.mutateCalls ++
        [LedgerCall.transfer input.asset_id env.caller input.dest input.value
          true] := by
  rw [dispatch_transfer]
  simp only [transferArm, chargeWeight_of_le hw, hd]
  split <;> rfl

/-- An environment whose input buffer is a well-formed transfer request to
acct2 over 40 units of asset 5, dispatched by caller acct1. -/
def xferEnv : ExtEnv where
  caller := acct1
  inputBuf := Psp22TransferInput.encode ⟨5, acct2, 40⟩
  outputCapacity := 64

theorem c10_witness :
    (estimatedCost testWeights.transfer ≤ testState.weightLeft ∧
     Psp22TransferInput.decode xferEnv.inputBuf = some (⟨5, acct2, 40⟩, [])) ∧
    (dispatch specOps testWeights 0xdb20f9f5 xferEnv testState).2.mutateCalls =
      testState.mutateCalls ++ [LedgerCall.transfer 5 acct1 acct2 40 true] :=
  ⟨⟨by decide, by decide⟩,
   c10_transfer_caller_keep_alive specOps testWeights xferEnv testState
     ⟨5, acct2, 40⟩ [] (by decide) (by decide)⟩

end Psp22
